import Mathlib

/-!
Shallow embedding of the cognito-lambda-sample authentication helpers
(src/utils/auth.py and src/utils/cognito.py).

Modelling conventions:
* Python strings are Lean `String`; Python truthiness of a string is
  non-emptiness; a Python value that may be `None` is an `Option`.
* The JWT library (PyJWT) and the network are external collaborators; they
  are modelled as oracles (`JwtLib`, `Net`) the functions are parameterised
  over, so theorems quantify over every possible library/provider behaviour.
* The four exception classes of src/utils/cognito.py (ValidationError,
  AuthenticationError, AuthorizationError, ServiceError) become the four
  constructors of `AppError`, each carrying the raised message; raising
  becomes returning `.error`.
* The mutable JWKS cache of `TokenValidator` becomes explicit state passing
  of `VState` (cached document plus a count of network fetches performed).
* Case-insensitivity is modelled over ASCII via `Char.toLower`, which is
  what the relevant comparisons ("bearer", "authorization") exercise.
-/

namespace CognitoSample

/-- The four error categories of src/utils/cognito.py, as raised values. -/
inductive AppError where
  | validation (msg : String)
  | authentication (msg : String)
  | authorization (msg : String)
  | service (msg : String)
deriving DecidableEq, Repr

/-- Category of a raised error, forgetting the message. -/
inductive ErrCategory where
  | authentication
  | authorization
  | validation
  | service
deriving DecidableEq, Repr

def categoryOf : AppError → ErrCategory
  | .validation _ => .validation
  | .authentication _ => .authentication
  | .authorization _ => .authorization
  | .service _ => .service

/-! ## JWKS documents and the key cache (TokenValidator._get_public_key) -/

/-- One JWK entry of the discovery document's `keys` array: `key.get('kid')`
may be absent, and `from_jwk(key)` yields opaque key material. -/
structure Jwk where
  kid : Option String
  material : String
deriving DecidableEq, Repr

/-- The parsed JSON discovery document, restricted to what the code reads:
the optional `keys` entry, plus the number of other top-level entries
(which only matters for the dict's Python truthiness). -/
structure JwksDoc where
  keys : Option (List Jwk)
  extraEntries : Nat
deriving DecidableEq, Repr

/-- Python truthiness of the document dict: non-empty. -/
def JwksDoc.truthy (d : JwksDoc) : Bool :=
  d.keys.isSome || d.extraEntries != 0

/-- The read `self._jwks_cache.get('keys', [])`. -/
def JwksDoc.keysList (d : JwksDoc) : List Jwk :=
  d.keys.getD []

/-- Truthiness of `self._jwks_cache` (initially None). -/
def cacheTruthy : Option JwksDoc → Bool
  | none => false
  | some d => d.truthy

/-- Mutable state of one TokenValidator instance: the `_jwks_cache` field,
plus an instrumentation counter of network fetches actually issued. -/
structure VState where
  cache : Option JwksDoc
  fetchCount : Nat
deriving DecidableEq, Repr

/-- Construction: `TokenValidator.__init__` leaves `_jwks_cache = None`. -/
def initState : VState := ⟨none, 0⟩

/-- The network, as an oracle: the outcome of the n-th `requests.get` of the
JWKS URL — either a RequestException (with its message) or a parsed JSON
document. -/
def Net : Type := Nat → Except String JwksDoc

def MSG_INVALID : String := "トークンが無効です"
def MSG_EXPIRED : String := "トークンの有効期限が切れています"
def MSG_AUTH_REQUIRED : String := "認証が必要です"
def MSG_BAD_HEADER : String := "認証ヘッダーが無効です"

/-- The loop over `self._jwks_cache.get('keys', [])` searching for the entry
whose `kid` equals the requested key id; no match raises the generic
AuthorizationError. -/
def lookupKid : List Jwk → String → Except AppError String
  | [], _ => .error (.authorization MSG_INVALID)
  | k :: rest, kid =>
    if k.kid = some kid then .ok k.material else lookupKid rest kid

/-- Model of `TokenValidator._get_public_key`: fetch-and-fill the cache when it is
falsy (None or an empty dict), then scan the cached key list. A failed
fetch leaves the cache unassigned and raises ServiceError. -/
def get_public_key (net : Net) (s : VState) (kid : String) :
    Except AppError String × VState :=
  if cacheTruthy s.cache then
    (lookupKid ((s.cache.getD ⟨none, 0⟩).keysList) kid, s)
  else
    match net s.fetchCount with
    | .error msg =>
      (.error (.service ("JWKS取得に失敗しました: " ++ msg)),
       ⟨s.cache, s.fetchCount + 1⟩)
    | .ok d =>
      (lookupKid d.keysList kid, ⟨some d, s.fetchCount + 1⟩)

/-! ## The JWT library oracle and TokenValidator.validate_token -/

/-- Outcome of `jwt.get_unverified_header(token).get('kid')`: the optional
kid claim, a DecodeError/InvalidTokenError, or any other exception (which
the catch-all turns into ServiceError). -/
inductive HeaderOutcome where
  | ok (kid : Option String)
  | invalidTok
  | fail (msg : String)
deriving DecidableEq, Repr

/-- The decoded payload, restricted to the claims the code reads. -/
structure Claims where
  sub : Option String
  username : Option String
  client_id : Option String
  token_use : Option String
  scope : Option String
  auth_time : Option Int
  iat : Option Int
  exp : Option Int
deriving DecidableEq, Repr

/-- Outcome of `jwt.decode(token, public_key, ...)` with signature and
expiry verification on: success, ExpiredSignatureError, one of
DecodeError/InvalidTokenError/InvalidSignatureError, or any other
exception. -/
inductive DecodeOutcome where
  | ok (payload : Claims)
  | expired
  | invalid
  | fail (msg : String)
deriving DecidableEq, Repr

/-- The PyJWT library as an oracle over token strings and key material. -/
structure JwtLib where
  header : String → HeaderOutcome
  decode : String → String → DecodeOutcome

/-- Model of `TokenValidator.validate_token`. Mirrors the try/except structure:
ExpiredSignatureError gets its own message; DecodeError-family failures,
missing kid, unknown kid and wrong token_use all get MSG_INVALID; other
exceptions become ServiceError; errors from `_get_public_key` are
re-raised unchanged. -/
def validate_token (lib : JwtLib) (net : Net) (s : VState) (token : String) :
    Except AppError Claims × VState :=
  if token = "" then
    (.error (.validation "Token is required"), s)
  else
    match lib.header token with
    | .fail msg =>
      (.error (.service ("トークン検証中にエラーが発生しました: " ++ msg)), s)
    | .invalidTok => (.error (.authorization MSG_INVALID), s)
    | .ok none => (.error (.authorization MSG_INVALID), s)
    | .ok (some kid) =>
      if kid = "" then (.error (.authorization MSG_INVALID), s)
      else
        match get_public_key net s kid with
        | (.error e, s2) => (.error e, s2)
        | (.ok pem, s2) =>
          match lib.decode token pem with
          | .expired => (.error (.authorization MSG_EXPIRED), s2)
          | .invalid => (.error (.authorization MSG_INVALID), s2)
          | .fail msg =>
            (.error (.service ("トークン検証中にエラーが発生しました: " ++ msg)), s2)
          | .ok payload =>
            if payload.token_use = some "access" then (.ok payload, s2)
            else (.error (.authorization MSG_INVALID), s2)

/-! ## Header and event extraction (auth.py lines 135-192) -/

/-- Python's whitespace class as matched by `str.strip()` and `\s` (ASCII
part, which is all the code's comparisons exercise). -/
def pyWs (c : Char) : Bool :=
  c = ' ' || c = '\t' || c = '\n' || c = '\r' || c = '\x0b' || c = '\x0c'

/-- Python `str.strip()` on the character list of a string. -/
def pyStripList (l : List Char) : List Char :=
  ((l.dropWhile pyWs).reverse.dropWhile pyWs).reverse

/-- The regex `^Bearer\s+(.+)$` with IGNORECASE, applied via `re.match` to a
whitespace-stripped string (the only way the code applies it): a
case-insensitive `bearer` prefix, at least one whitespace character, and a
remainder that is non-empty and contains no newline (`.` never matches a
newline, and with no trailing whitespace the `$` anchor only matches the
very end). Returns the captured group. -/
def bearerMatch (l : List Char) : Option (List Char) :=
  match l with
  | c1 :: c2 :: c3 :: c4 :: c5 :: c6 :: rest =>
    if [c1.toLower, c2.toLower, c3.toLower, c4.toLower, c5.toLower, c6.toLower]
        = ['b', 'e', 'a', 'r', 'e', 'r'] then
      let ws := rest.takeWhile pyWs
      let tok := rest.dropWhile pyWs
      if ws ≠ [] ∧ tok ≠ [] ∧ ¬ tok.contains '\n' then some tok else none
    else none
  | _ => none

/-- Model of `extract_token_from_header` (auth.py lines 135-163). -/
def extract_token_from_header (authorization_header : String) :
    Except AppError String :=
  if authorization_header = "" then
    .error (.validation MSG_AUTH_REQUIRED)
  else
    match bearerMatch (pyStripList authorization_header.toList) with
    | none => .error (.authorization MSG_BAD_HEADER)
    | some tok =>
      if tok = [] then .error (.authorization MSG_BAD_HEADER)
      else .ok (String.mk tok)

/-- Python `str.lower()` over the character list (ASCII case mapping, which is all
the comparison with the ASCII literal `authorization` exercises). -/
def pyLower (s : String) : String :=
  String.mk (s.toList.map Char.toLower)

/-- The loop over `headers.items()` looking for the first key whose
`key.lower()` equals `authorization`; a Python dict iterates in insertion
order, modelled as an association list. -/
def findAuthHeader : List (String × String) → Option String
  | [] => none
  | (k, v) :: rest =>
    if pyLower k = "authorization" then some v else findAuthHeader rest

/-- Model of `extract_token_from_event` (auth.py lines 166-192): `event.get('headers',
{})` is the optional header mapping; a missing header, or one found with a
falsy (empty) value, raises ValidationError; otherwise delegate. -/
def extract_token_from_event (headers : Option (List (String × String))) :
    Except AppError String :=
  match findAuthHeader (headers.getD []) with
  | none => .error (.validation MSG_AUTH_REQUIRED)
  | some v =>
    if v = "" then .error (.validation MSG_AUTH_REQUIRED)
    else extract_token_from_header v

/-! ## User-info projection (auth.py lines 195-231) -/

/-- One pass of Python `str.split()` with no argument, carrying the
(reversed) word under construction: split on runs of whitespace,
discarding empty pieces. -/
def pyWordsGo : List Char → List Char → List (List Char)
  | [], cur => if cur = [] then [] else [cur.reverse]
  | c :: rest, cur =>
    if pyWs c then
      if cur = [] then pyWordsGo rest []
      else cur.reverse :: pyWordsGo rest []
    else pyWordsGo rest (c :: cur)

/-- Python `str.split()` with no argument. -/
def pySplit (s : String) : List String :=
  (pyWordsGo s.toList []).map String.mk

/-- The user-info record built at auth.py lines 222-231. -/
structure UserInfo where
  user_id : Option String
  username : Option String
  client_id : Option String
  token_use : Option String
  scope : List String
  auth_time : Option Int
  iat : Option Int
  exp : Option Int
deriving DecidableEq, Repr

/-- The expression `payload.get('scope', '').split() if payload.get('scope') else []`. -/
def scopeSplit (sc : Option String) : List String :=
  match sc with
  | none => []
  | some s => if s = "" then [] else pySplit s

/-- The dict literal returned on success by `validate_and_extract_user_info`. -/
def projectClaims (payload : Claims) : UserInfo :=
  { user_id := payload.sub
    username := payload.username
    client_id := payload.client_id
    token_use := payload.token_use
    scope := scopeSplit payload.scope
    auth_time := payload.auth_time
    iat := payload.iat
    exp := payload.exp }

/-- Model of `validate_and_extract_user_info` (auth.py lines 195-231): argument
guards, then a fresh TokenValidator (fresh cache, `initState`), then the
projection. The returned state exposes the validator's final cache state
and fetch count; on the guard paths no validator exists and no fetch can
have happened, which `initState` (fetchCount 0) records. -/
def validate_and_extract_user_info (lib : JwtLib) (net : Net)
    (token user_pool_id : String) : Except AppError UserInfo × VState :=
  if token = "" then (.error (.validation MSG_AUTH_REQUIRED), initState)
  else if user_pool_id = "" then
    (.error (.validation "User pool ID is required"), initState)
  else
    match validate_token lib net initState token with
    | (.ok payload, s2) => (.ok (projectClaims payload), s2)
    | (.error e, s2) => (.error e, s2)

/-! ## Directory client (src/utils/cognito.py) -/

/-- Model of `CognitoClient._handle_client_error` (cognito.py lines 307-335): the
provider error code and message determine the raised category and
message. -/
def handle_client_error (error_code error_message : String) : AppError :=
  if error_code ∈ ["NotAuthorizedException", "UserNotFoundException",
                   "UserNotConfirmedException", "PasswordResetRequiredException"] then
    .authentication "認証に失敗しました"
  else if error_code ∈ ["AccessDeniedException", "UnauthorizedOperation"] then
    .authorization "アクセスが拒否されました"
  else if error_code ∈ ["InvalidParameterException", "InvalidPasswordException",
                        "UsernameExistsException", "AliasExistsException"] then
    .validation ("リクエストが不正です: " ++ error_message)
  else if error_code ∈ ["InternalErrorException", "TooManyRequestsException",
                        "ResourceNotFoundException"] then
    .service ("サービスエラーが発生しました: " ++ error_message)
  else
    .service ("予期しないエラーが発生しました: " ++ error_message)

/-- The `AuthenticationResult` field of a raw InitiateAuth response,
restricted to the keys `_normalize_auth_response` reads. -/
structure RawAuthResult where
  accessToken : Option String
  refreshToken : Option String
  idToken : Option String
  tokenType : Option String
  expiresIn : Option Int
deriving DecidableEq, Repr

/-- The normalized token bundle of `_normalize_auth_response`. -/
structure NormalizedAuth where
  access_token : Option String
  refresh_token : Option String
  id_token : Option String
  token_type : String
  expires_in : Int
deriving DecidableEq, Repr

def normalize_auth_response (r : RawAuthResult) : NormalizedAuth :=
  { access_token := r.accessToken
    refresh_token := r.refreshToken
    id_token := r.idToken
    token_type := r.tokenType.getD "Bearer"
    expires_in := r.expiresIn.getD 3600 }

/-- Outcome of the one `initiate_auth` provider call, as an oracle: success,
a botocore ClientError carrying a provider code and message, or any other
exception. -/
inductive ProviderOutcome where
  | ok (r : RawAuthResult)
  | clientError (code msg : String)
  | fail (msg : String)
deriving DecidableEq, Repr

/-- Model of `CognitoClient.authenticate` (cognito.py lines 87-121). The second
component counts provider calls actually issued (0 or 1): the argument
guard returns before any network activity. -/
def authenticate (provider : ProviderOutcome) (email password : String) :
    Except AppError NormalizedAuth × Nat :=
  if email = "" || password = "" then
    (.error (.validation "Email and password are required"), 0)
  else
    match provider with
    | .ok r => (.ok (normalize_auth_response r), 1)
    | .clientError code msg => (.error (handle_client_error code msg), 1)
    | .fail msg =>
      (.error (.service ("Unexpected error during authentication: " ++ msg)), 1)

deriving instance DecidableEq for Except

/-! ## Theorems -/

/-- C3: for an empty or missing token, both `validate_token` and
`validate_and_extract_user_info` raise a Validation error (never an
Authorization error) and return with the validator state untouched — the
fetch counter records zero network activity, and the result does not depend
on the JWT library or the network oracle, so no header parsing or key fetch
can have occurred. -/
theorem c3_empty_token_validation_error :
    ∀ (lib : JwtLib) (net : Net) (s : VState) (pool : String),
      validate_token lib net s ""
        = (.error (.validation "Token is required"), s) ∧
      validate_and_extract_user_info lib net "" pool
        = (.error (.validation MSG_AUTH_REQUIRED), initState) := by
  intro lib net s pool
  exact ⟨rfl, rfl⟩

/-- C9: authenticating with an empty email or an empty password raises the
Validation error "Email and password are required" and issues zero provider
calls, whatever the provider would have answered. -/
theorem c9_authenticate_guard (provider : ProviderOutcome)
    (email password : String) (h : email = "" ∨ password = "") :
    authenticate provider email password
      = (.error (.validation "Email and password are required"), 0) := by
  rcases h with h | h <;> simp [authenticate, h]

/-- Witness for C9 at the concrete input email = "", password = "secret". -/
theorem c9_authenticate_guard_witness :
    authenticate (.fail "network down") "" "secret"
      = (.error (.validation "Email and password are required"), 0) :=
  c9_authenticate_guard (.fail "network down") "" "secret" (Or.inl rfl)

/-- The thirteen-row provider-code table of spec §4.5, as data (the spec's
side of the refinement for C4). -/
def specTable : List (String × ErrCategory) :=
  [("NotAuthorizedException", .authentication),
   ("UserNotFoundException", .authentication),
   ("UserNotConfirmedException", .authentication),
   ("PasswordResetRequiredException", .authentication),
   ("AccessDeniedException", .authorization),
   ("UnauthorizedOperation", .authorization),
   ("InvalidParameterException", .validation),
   ("InvalidPasswordException", .validation),
   ("UsernameExistsException", .validation),
   ("AliasExistsException", .validation),
   ("InternalErrorException", .service),
   ("TooManyRequestsException", .service),
   ("ResourceNotFoundException", .service)]

/-- C4: the provider-error classification is a pure total function on error
codes: every code maps to the category the spec's table lists for it
(defaulting to Service for a code outside the table), and a code outside
the table gets exactly the generic unexpected-error Service message. -/
theorem c4_error_table_refinement :
    ∀ (code msg : String),
      categoryOf (handle_client_error code msg)
        = (List.lookup code specTable).getD .service ∧
      (List.lookup code specTable = none →
        handle_client_error code msg
          = .service ("予期しないエラーが発生しました: " ++ msg)) := by
  intro code msg
  by_cases h1 : code = "NotAuthorizedException"
  · subst h1; exact ⟨rfl, by intro h; cases h⟩
  by_cases h2 : code = "UserNotFoundException"
  · subst h2; exact ⟨rfl, by intro h; cases h⟩
  by_cases h3 : code = "UserNotConfirmedException"
  · subst h3; exact ⟨rfl, by intro h; cases h⟩
  by_cases h4 : code = "PasswordResetRequiredException"
  · subst h4; exact ⟨rfl, by intro h; cases h⟩
  by_cases h5 : code = "AccessDeniedException"
  · subst h5; exact ⟨rfl, by intro h; cases h⟩
  by_cases h6 : code = "UnauthorizedOperation"
  · subst h6; exact ⟨rfl, by intro h; cases h⟩
  by_cases h7 : code = "InvalidParameterException"
  · subst h7; exact ⟨rfl, by intro h; cases h⟩
  by_cases h8 : code = "InvalidPasswordException"
  · subst h8; exact ⟨rfl, by intro h; cases h⟩
  by_cases h9 : code = "UsernameExistsException"
  · subst h9; exact ⟨rfl, by intro h; cases h⟩
  by_cases h10 : code = "AliasExistsException"
  · subst h10; exact ⟨rfl, by intro h; cases h⟩
  by_cases h11 : code = "InternalErrorException"
  · subst h11; exact ⟨rfl, by intro h; cases h⟩
  by_cases h12 : code = "TooManyRequestsException"
  · subst h12; exact ⟨rfl, by intro h; cases h⟩
  by_cases h13 : code = "ResourceNotFoundException"
  · subst h13; exact ⟨rfl, by intro h; cases h⟩
  have hlk : List.lookup code specTable = none := by
    simp [specTable, List.lookup,
          beq_eq_false_iff_ne.mpr h1, beq_eq_false_iff_ne.mpr h2,
          beq_eq_false_iff_ne.mpr h3, beq_eq_false_iff_ne.mpr h4,
          beq_eq_false_iff_ne.mpr h5, beq_eq_false_iff_ne.mpr h6,
          beq_eq_false_iff_ne.mpr h7, beq_eq_false_iff_ne.mpr h8,
          beq_eq_false_iff_ne.mpr h9, beq_eq_false_iff_ne.mpr h10,
          beq_eq_false_iff_ne.mpr h11, beq_eq_false_iff_ne.mpr h12,
          beq_eq_false_iff_ne.mpr h13]
  refine ⟨?_, fun _ => ?_⟩ <;>
    simp [handle_client_error, categoryOf, hlk,
          h1, h2, h3, h4, h5, h6, h7, h8, h9, h10, h11, h12, h13]

/-- C6: Bearer-scheme extraction trims surrounding whitespace, matches the
scheme case-insensitively, accepts one-or-more whitespace between scheme
and token ("Bearer X", "bearer X", "  Bearer   X  " all yield "X"); a
non-matching shape ("Basic X", "Bearer " without a token) raises an
Authorization error; the empty input raises a Validation error; and no
non-empty input ever raises a Validation error. -/
theorem c6_header_extraction :
    extract_token_from_header "Bearer X" = .ok "X" ∧
    extract_token_from_header "bearer X" = .ok "X" ∧
    extract_token_from_header "  Bearer   X  " = .ok "X" ∧
    extract_token_from_header "Basic X" = .error (.authorization MSG_BAD_HEADER) ∧
    extract_token_from_header "Bearer " = .error (.authorization MSG_BAD_HEADER) ∧
    extract_token_from_header "" = .error (.validation MSG_AUTH_REQUIRED) ∧
    (∀ (h m : String), h ≠ "" →
      extract_token_from_header h ≠ .error (.validation m)) := by
  refine ⟨by decide, by decide, by decide, by decide, by decide, by decide, ?_⟩
  intro h m hne
  rw [extract_token_from_header, if_neg hne]
  rcases hbm : bearerMatch (pyStripList h.toList) with _ | tok
  · simp
  · by_cases ht : tok = [] <;> simp [ht]

/-- C7: event extraction finds the authorization header by case-insensitive
key comparison ("Authorization", "authorization", "AuThOrIzAtIoN" succeed
identically with the same token); an absent or empty header mapping, or one
with no such key, raises a Validation error; and whenever the scan finds a
header value, the result is exactly `extract_token_from_header` on it. -/
theorem c7_event_extraction :
    extract_token_from_event (some [("Authorization", "Bearer T")]) = .ok "T" ∧
    extract_token_from_event (some [("authorization", "Bearer T")]) = .ok "T" ∧
    extract_token_from_event (some [("AuThOrIzAtIoN", "Bearer T")]) = .ok "T" ∧
    extract_token_from_event none = .error (.validation MSG_AUTH_REQUIRED) ∧
    extract_token_from_event (some []) = .error (.validation MSG_AUTH_REQUIRED) ∧
    (∀ hs, findAuthHeader hs = none →
      extract_token_from_event (some hs)
        = .error (.validation MSG_AUTH_REQUIRED)) ∧
    (∀ hs v, findAuthHeader hs = some v →
      extract_token_from_event (some hs) = extract_token_from_header v) := by
  refine ⟨by decide, by decide, by decide, by decide, by decide, ?_, ?_⟩
  · intro hs h
    simp [extract_token_from_event, h]
  · intro hs v h
    by_cases hv : v = ""
    · subst hv
      simp [extract_token_from_event, extract_token_from_header, h]
    · simp [extract_token_from_event, h, hv]

/-- C2: a token whose header yields a usable kid, whose key resolves, and
whose signature verifies cryptographically (`decode` succeeds) but whose
token_use claim differs from the literal "access" (wrong value or absent)
makes `validate_token` raise the generic invalid-token Authorization error;
the payload is never returned. -/
theorem c2_wrong_token_use (lib : JwtLib) (net : Net) (s : VState)
    (token kid pem : String) (s2 : VState) (payload : Claims)
    (htok : token ≠ "") (hh : lib.header token = .ok (some kid))
    (hkid : kid ≠ "") (hg : get_public_key net s kid = (.ok pem, s2))
    (hd : lib.decode token pem = .ok payload)
    (hu : payload.token_use ≠ some "access") :
    validate_token lib net s token
      = (.error (.authorization MSG_INVALID), s2) := by
  simp [validate_token, htok, hh, hkid, hg, hd, hu]

/-- Concrete fixtures for witnesses: one published key `k1`, a network that
serves it, and a library that verifies every token into an id-token
payload. -/
def jwkK1 : Jwk := ⟨some "k1", "PEM1"⟩

def docK1 : JwksDoc := ⟨some [jwkK1], 0⟩

def netK1 : Net := fun _ => .ok docK1

def idClaims : Claims :=
  ⟨some "sub1", some "user1", some "client1", some "id",
   some "openid profile email", some 10, some 11, some 12⟩

def libId : JwtLib :=
  ⟨fun _ => .ok (some "k1"), fun _ _ => .ok idClaims⟩

/-- Witness for C2 at a concrete token whose token_use is "id". -/
theorem c2_wrong_token_use_witness :
    validate_token libId netK1 initState "tok"
      = (.error (.authorization MSG_INVALID), ⟨some docK1, 1⟩) :=
  c2_wrong_token_use libId netK1 initState "tok" "k1" "PEM1"
    ⟨some docK1, 1⟩ idClaims (by decide) rfl (by decide) rfl rfl (by decide)

/-- C8: the user-info projection splits a present, non-empty scope claim on
whitespace into an ordered sequence ("openid profile email" becomes
["openid","profile","email"]) and turns an absent or empty scope claim into
the empty sequence, never a failure; every other projected field is carried
through from the verified claims unchanged (absent claims project to
`none`). -/
theorem c8_user_info_projection :
    pySplit "openid profile email" = ["openid", "profile", "email"] ∧
    ∀ (lib : JwtLib) (net : Net) (token pool : String)
      (info : UserInfo) (s2 : VState),
      validate_and_extract_user_info lib net token pool = (.ok info, s2) →
      ∃ payload : Claims,
        validate_token lib net initState token = (.ok payload, s2) ∧
        info.scope = (match payload.scope with
          | none => []
          | some str => if str = "" then [] else pySplit str) ∧
        info.user_id = payload.sub ∧
        info.username = payload.username ∧
        info.client_id = payload.client_id ∧
        info.token_use = payload.token_use ∧
        info.auth_time = payload.auth_time ∧
        info.iat = payload.iat ∧
        info.exp = payload.exp := by
  refine ⟨by decide, ?_⟩
  intro lib net token pool info s2 h
  by_cases htok : token = ""
  · rw [validate_and_extract_user_info, if_pos htok] at h
    simp at h
  by_cases hpool : pool = ""
  · rw [validate_and_extract_user_info, if_neg htok, if_pos hpool] at h
    simp at h
  rcases hval : validate_token lib net initState token with ⟨r, s1⟩
  rcases r with e | payload
  · rw [validate_and_extract_user_info, if_neg htok, if_neg hpool, hval] at h
    simp at h
  · rw [validate_and_extract_user_info, if_neg htok, if_neg hpool, hval] at h
    simp only [Prod.mk.injEq, Except.ok.injEq] at h
    obtain ⟨hinfo, hs⟩ := h
    subst hs
    subst hinfo
    exact ⟨payload, hval ▸ rfl, rfl, rfl, rfl, rfl, rfl, rfl, rfl, rfl⟩

/-! ## The key-set cache across repeated lookups (C5) -/

/-- Iterated `_get_public_key` calls on the same validator instance,
tracking only the evolving state. -/
def runGetKeys (net : Net) (s : VState) : List String → VState
  | [] => s
  | k :: rest => runGetKeys net (get_public_key net s k).2 rest

/-- C5 (amended): once the instance's cache holds a truthy (non-empty)
document — as any document with a `keys` entry is — every later
`_get_public_key` call leaves the state untouched: no further fetch, no
cache write, for any sequence of requested key ids. -/
theorem c5_cache_stable_once_truthy (net : Net) (s : VState) (d : JwksDoc)
    (hc : s.cache = some d) (ht : d.truthy = true) :
    (∀ k, (get_public_key net s k).2 = s) ∧
    (∀ kids, runGetKeys net s kids = s) := by
  have hone : ∀ k, (get_public_key net s k).2 = s := by
    intro k
    simp [get_public_key, cacheTruthy, hc, ht]
  refine ⟨hone, ?_⟩
  intro kids
  induction kids with
  | nil => rfl
  | cons k rest ih => rw [runGetKeys, hone k]; exact ih

/-- Witness for C5 at the concrete cached document `docK1`. -/
theorem c5_cache_stable_once_truthy_witness :
    (∀ k, (get_public_key netK1 ⟨some docK1, 1⟩ k).2 = ⟨some docK1, 1⟩) ∧
    (∀ kids, runGetKeys netK1 ⟨some docK1, 1⟩ kids = ⟨some docK1, 1⟩) :=
  c5_cache_stable_once_truthy netK1 ⟨some docK1, 1⟩ docK1 rfl (by decide)

/-- The provider successfully serving the empty JSON object as its
discovery document. -/
def emptyDoc : JwksDoc := ⟨none, 0⟩

def netEmpty : Net := fun _ => .ok emptyDoc

/-- Counterexample to C5 as stated: after the first call's successful fetch
(the cache is written and the fetch counter is 1), a second `get_key` call
on the same instance fetches and writes again (the counter reaches 2),
because the check-then-fill test is Python truthiness and the successfully
fetched empty JSON object is falsy. -/
theorem c5_counterexample_empty_doc :
    (get_public_key netEmpty initState "kid1").2 = ⟨some emptyDoc, 1⟩ ∧
    (get_public_key netEmpty ⟨some emptyDoc, 1⟩ "kid1").2
      = ⟨some emptyDoc, 2⟩ :=
  ⟨rfl, rfl⟩

/-! ## The Authorization message asymmetry (C1) -/

lemma lookupKid_error_msg :
    ∀ (ks : List Jwk) (kid : String) (e : AppError),
      lookupKid ks kid = .error e → e = .authorization MSG_INVALID := by
  intro ks
  induction ks with
  | nil =>
    intro kid e h
    simp [lookupKid] at h
    exact h.symm
  | cons k rest ih =>
    intro kid e h
    by_cases hk : k.kid = some kid
    · simp [lookupKid, hk] at h
    · rw [lookupKid, if_neg hk] at h
      exact ih kid e h

/-- An error out of `_get_public_key` is either the generic invalid-token
Authorization error (unknown or unlisted kid) or the fetch-failure Service
error. -/
lemma get_public_key_error_msg (net : Net) (s : VState) (kid : String)
    (e : AppError) (s2 : VState)
    (h : get_public_key net s kid = (.error e, s2)) :
    e = .authorization MSG_INVALID ∨
    ∃ m, e = .service ("JWKS取得に失敗しました: " ++ m) := by
  rw [get_public_key] at h
  by_cases hc : cacheTruthy s.cache
  · rw [if_pos hc] at h
    exact Or.inl (lookupKid_error_msg _ _ _ (congrArg Prod.fst h))
  · rw [if_neg hc] at h
    rcases hn : net s.fetchCount with m | d
    · rw [hn] at h
      simp only [Prod.mk.injEq, Except.error.injEq] at h
      exact Or.inr ⟨m, h.1.symm⟩
    · rw [hn] at h
      exact Or.inl (lookupKid_error_msg _ _ _ (congrArg Prod.fst h))

/-- The one condition under which validation fails because the expiry has
passed while the signature was otherwise verifiable: the header yields a
usable kid, the key resolves, and `jwt.decode` reports
ExpiredSignatureError. -/
def expiredPath (lib : JwtLib) (net : Net) (s : VState) (token : String) :
    Prop :=
  token ≠ "" ∧ ∃ kid pem s2,
    lib.header token = .ok (some kid) ∧ kid ≠ "" ∧
    get_public_key net s kid = (.ok pem, s2) ∧
    lib.decode token pem = .expired

/-- The token-level failure causes that share the generic invalid-token
message: header decode failure, key identifier missing from the header
(absent or falsy), key identifier absent from the fetched key set,
signature/decode failure, and wrong token_use. -/
def genericInvalidPath (lib : JwtLib) (net : Net) (s : VState)
    (token : String) : Prop :=
  token ≠ "" ∧
  (lib.header token = .invalidTok ∨
   lib.header token = .ok none ∨
   lib.header token = .ok (some "") ∨
   (∃ kid s2, lib.header token = .ok (some kid) ∧ kid ≠ "" ∧
     get_public_key net s kid = (.error (.authorization MSG_INVALID), s2)) ∨
   (∃ kid pem s2, lib.header token = .ok (some kid) ∧ kid ≠ "" ∧
     get_public_key net s kid = (.ok pem, s2) ∧
     lib.decode token pem = .invalid) ∨
   (∃ kid pem s2 payload, lib.header token = .ok (some kid) ∧ kid ≠ "" ∧
     get_public_key net s kid = (.ok pem, s2) ∧
     lib.decode token pem = .ok payload ∧
     payload.token_use ≠ some "access"))

/-- C1: the expired-token message is distinct from the generic
invalid-token message; `validate_token` produces the expired message
exactly on the expiry path, produces the generic message exactly on the
other token-level Authorization failure causes (missing kid, unknown kid,
decode/signature failure, wrong token_use), and raises no Authorization
message other than these two. -/
theorem c1_authorization_message_asymmetry :
    ∀ (lib : JwtLib) (net : Net) (s : VState) (token : String),
      MSG_EXPIRED ≠ MSG_INVALID ∧
      ((validate_token lib net s token).1
          = .error (.authorization MSG_EXPIRED) ↔
        expiredPath lib net s token) ∧
      ((validate_token lib net s token).1
          = .error (.authorization MSG_INVALID) ↔
        genericInvalidPath lib net s token) ∧
      (∀ m : String,
        (validate_token lib net s token).1 = .error (.authorization m) →
        m = MSG_EXPIRED ∨ m = MSG_INVALID) := by
  intro lib net s token
  have hmsg : MSG_EXPIRED ≠ MSG_INVALID := by decide
  by_cases htok : token = ""
  · refine ⟨hmsg, ?_, ?_, ?_⟩ <;>
      simp [validate_token, expiredPath, genericInvalidPath, htok]
  rcases hh : lib.header token with kidOpt | _ | m0
  · rcases kidOpt with _ | kid
    · refine ⟨hmsg, ?_, ?_, ?_⟩ <;>
        simp [validate_token, expiredPath, genericInvalidPath, htok, hh,
              Ne.symm hmsg]
    · by_cases hkid : kid = ""
      · subst hkid
        refine ⟨hmsg, ?_, ?_, ?_⟩ <;>
          simp [validate_token, expiredPath, genericInvalidPath, htok, hh,
                Ne.symm hmsg]
      · rcases hg : get_public_key net s kid with ⟨r, s2⟩
        rcases r with e | pem
        · rcases get_public_key_error_msg net s kid e s2 hg with he | ⟨m1, he⟩
          · subst he
            refine ⟨hmsg, ?_, ?_, ?_⟩ <;>
              simp [validate_token, expiredPath, genericInvalidPath, htok, hh,
                    hkid, hg, Ne.symm hmsg, hmsg]
          · subst he
            refine ⟨hmsg, ?_, ?_, ?_⟩ <;>
              simp [validate_token, expiredPath, genericInvalidPath, htok, hh,
                    hkid, hg]
        · rcases hd : lib.decode token pem with payload | _ | _ | m1
          · by_cases hu : payload.token_use = some "access"
            · refine ⟨hmsg, ?_, ?_, ?_⟩ <;>
                simp [validate_token, expiredPath, genericInvalidPath, htok,
                      hh, hkid, hg, hd, hu]
            · refine ⟨hmsg, ?_, ?_, ?_⟩ <;>
                simp [validate_token, expiredPath, genericInvalidPath, htok,
                      hh, hkid, hg, hd, hu, Ne.symm hmsg, hmsg]
          · refine ⟨hmsg, ?_, ?_, ?_⟩ <;>
              simp [validate_token, expiredPath, genericInvalidPath, htok, hh,
                    hkid, hg, hd, hmsg, Ne.symm hmsg]
          · refine ⟨hmsg, ?_, ?_, ?_⟩ <;>
              simp [validate_token, expiredPath, genericInvalidPath, htok, hh,
                    hkid, hg, hd, hmsg, Ne.symm hmsg]
          · refine ⟨hmsg, ?_, ?_, ?_⟩ <;>
              simp [validate_token, expiredPath, genericInvalidPath, htok, hh,
                    hkid, hg, hd]
  · refine ⟨hmsg, ?_, ?_, ?_⟩ <;>
      simp [validate_token, expiredPath, genericInvalidPath, htok, hh,
            hmsg, Ne.symm hmsg]
  · refine ⟨hmsg, ?_, ?_, ?_⟩ <;>
      simp [validate_token, expiredPath, genericInvalidPath, htok, hh]

/-! ## Header-extraction round-trips (C10) -/

lemma head?_dropWhile_not (p : Char → Bool) :
    ∀ (l : List Char) (c : Char),
      (l.dropWhile p).head? = some c → p c = false := by
  intro l
  induction l with
  | nil => intro c h; cases h
  | cons a l ih =>
    intro c h
    by_cases hp : p a
    · rw [List.dropWhile_cons_of_pos hp] at h
      exact ih c h
    · rw [List.dropWhile_cons_of_neg hp] at h
      simp only [List.head?_cons, Option.some.injEq] at h
      subst h
      exact Bool.eq_false_iff.mpr hp

lemma pyStripList_getLast?_not (l : List Char) (c : Char)
    (h : (pyStripList l).getLast? = some c) : pyWs c = false := by
  rw [pyStripList, List.getLast?_reverse] at h
  exact head?_dropWhile_not pyWs _ c h

lemma bearerMatch_facts (l tok : List Char) (h : bearerMatch l = some tok) :
    tok ≠ [] ∧ tok.contains '\n' = false ∧ tok <:+ l ∧
    (∀ c, tok.head? = some c → pyWs c = false) := by
  match l with
  | [] => cases h
  | [c1] => cases h
  | [c1, c2] => cases h
  | [c1, c2, c3] => cases h
  | [c1, c2, c3, c4] => cases h
  | [c1, c2, c3, c4, c5] => cases h
  | c1 :: c2 :: c3 :: c4 :: c5 :: c6 :: rest =>
    rw [bearerMatch] at h
    by_cases hpre : [c1.toLower, c2.toLower, c3.toLower, c4.toLower,
        c5.toLower, c6.toLower] = ['b', 'e', 'a', 'r', 'e', 'r']
    · rw [if_pos hpre] at h
      by_cases hg : rest.takeWhile pyWs ≠ [] ∧ rest.dropWhile pyWs ≠ [] ∧
          ¬ (rest.dropWhile pyWs).contains '\n'
      · rw [if_pos hg] at h
        obtain ⟨-, h2, h3⟩ := hg
        injection h with h
        subst h
        refine ⟨h2, Bool.eq_false_iff.mpr h3, ?_, ?_⟩
        · refine (List.dropWhile_suffix pyWs).trans ?_
          refine (List.suffix_cons c6 rest).trans ?_
          refine (List.suffix_cons c5 _).trans ?_
          refine (List.suffix_cons c4 _).trans ?_
          refine (List.suffix_cons c3 _).trans ?_
          refine (List.suffix_cons c2 _).trans (List.suffix_cons c1 _)
        · intro c hc
          exact head?_dropWhile_not pyWs rest c hc
      · rw [if_neg hg] at h
        cases h
    · rw [if_neg hpre] at h
      cases h

/-- Counterexample to C10 as stated: extraction succeeds on "Bearer X"
with result "X", but applying extraction to "X" itself fails with an
Authorization error rather than returning "X" again. -/
theorem c10_counterexample :
    extract_token_from_header "Bearer X" = .ok "X" ∧
    extract_token_from_header "X" = .error (.authorization MSG_BAD_HEADER) := by
  exact ⟨by decide, by decide⟩

/-- C10 (amended): re-wrapping recovers the token — whenever extraction
succeeds on a header with result t, extraction on "Bearer " ++ t succeeds
and returns t again. (Direct re-application to the bare token is not
result-preserving, as the counterexample shows.) -/
theorem c10_rewrap_roundtrip (h t : String)
    (hok : extract_token_from_header h = .ok t) :
    extract_token_from_header ("Bearer " ++ t) = .ok t := by
  by_cases hne : h = ""
  · rw [extract_token_from_header, if_pos hne] at hok
    cases hok
  rw [extract_token_from_header, if_neg hne] at hok
  rcases hbm : bearerMatch (pyStripList h.toList) with _ | tokl
  · rw [hbm] at hok
    cases hok
  rw [hbm] at hok
  dsimp only at hok
  by_cases htl : tokl = []
  · rw [if_pos htl] at hok
    cases hok
  rw [if_neg htl] at hok
  injection hok with hok
  subst hok
  -- facts about the extracted token characters
  obtain ⟨-, hnl, hsuf, hhead⟩ := bearerMatch_facts _ _ hbm
  have hlast : ∀ c, tokl.getLast? = some c → pyWs c = false := by
    intro c hc
    obtain ⟨pre, hpre⟩ := hsuf
    have : (pyStripList h.toList).getLast? = some c := by
      rw [← hpre, List.getLast?_append_of_ne_nil pre htl]
      exact hc
    exact pyStripList_getLast?_not _ _ this
  -- the character list of the re-wrapped header
  have hdata : ("Bearer " ++ String.mk tokl).toList
      = 'B' :: 'e' :: 'a' :: 'r' :: 'e' :: 'r' :: ' ' :: tokl := by
    have := String.data_append "Bearer " (String.mk tokl)
    simp only [String.toList] at this
    exact this
  have hne2 : ("Bearer " ++ String.mk tokl) ≠ "" := by
    intro hcon
    have : ("Bearer " ++ String.mk tokl).data = "".data := by rw [hcon]
    rw [show ("Bearer " ++ String.mk tokl).data
        = 'B' :: 'e' :: 'a' :: 'r' :: 'e' :: 'r' :: ' ' :: tokl from hdata] at this
    cases this
  rw [extract_token_from_header, if_neg hne2, hdata]
  -- stripping is the identity on the re-wrapped list
  rcases hrev : tokl.reverse with _ | ⟨d, rev'⟩
  · exact absurd (List.reverse_eq_nil_iff.mp hrev) htl
  have hd : pyWs d = false := by
    apply hlast
    rw [← List.head?_reverse, hrev, List.head?_cons]
  have hstrip : pyStripList
      ('B' :: 'e' :: 'a' :: 'r' :: 'e' :: 'r' :: ' ' :: tokl)
      = 'B' :: 'e' :: 'a' :: 'r' :: 'e' :: 'r' :: ' ' :: tokl := by
    rw [pyStripList]
    rw [List.dropWhile_cons_of_neg (by decide : ¬ pyWs 'B' = true)]
    rw [show ('B' :: 'e' :: 'a' :: 'r' :: 'e' :: 'r' :: ' ' :: tokl).reverse
        = tokl.reverse ++ [' ', 'r', 'e', 'r', 'a', 'e', 'B'] by
      simp]
    rw [hrev]
    rw [List.cons_append]
    rw [List.dropWhile_cons_of_neg (by rw [hd]; decide)]
    rw [← List.cons_append, ← hrev]
    simp
  rw [hstrip]
  -- the Bearer pattern matches and captures exactly tokl
  rcases htokl : tokl with _ | ⟨e, tl⟩
  · exact absurd htokl htl
  have he : pyWs e = false := by
    apply hhead
    rw [htokl, List.head?_cons]
  rw [bearerMatch]
  rw [if_pos (by decide)]
  have hdrop : (' ' :: e :: tl).dropWhile pyWs = e :: tl := by
    rw [List.dropWhile_cons_of_pos (by decide)]
    exact List.dropWhile_cons_of_neg (by rw [he]; decide)
  have htake : (' ' :: e :: tl).takeWhile pyWs = [' '] := by
    rw [List.takeWhile_cons_of_pos (by decide)]
    simp [List.takeWhile_cons, he]
  rw [if_pos ?_]
  · rw [hdrop]
    dsimp only
    rw [if_neg (by simp : ¬ (e :: tl) = [])]
  · refine ⟨by rw [htake]; simp, by rw [hdrop]; simp, ?_⟩
    rw [hdrop, ← htokl]
    intro hcon
    rw [htokl] at hnl
    rw [htokl] at hcon
    rw [hnl] at hcon
    cases hcon

/-- Witness for the amended C10 at the concrete header "Bearer X". -/
theorem c10_rewrap_roundtrip_witness :
    extract_token_from_header ("Bearer " ++ "X") = .ok "X" :=
  c10_rewrap_roundtrip "Bearer X" "X" (by decide)

end CognitoSample
